import Mathlib

/-!
Shallow embedding of the configuration-language toolchain in `DZ.py`
(lexer `Lexer`, parser `Parser`, constant table and prefix-expression
evaluator), together with theorems settling the frozen claims about it.

Modelling conventions:
* the input text is a `List Char` with an explicit cursor `pos`, exactly as
  the Python code indexes `self.text` by `self.pos`;
* Python `int` is `Int`; Python `float` is modelled exactly as `ℚ`
  (every arithmetic step exercised by the claims is exact, so no rounding
  behaviour is lost);
* `while` loops of the source become fueled structural recursions whose
  fuel is the number of characters left, which bounds the iteration count
  of every loop in the source;
* exceptions become `Except PErr`; the Python `TypeError` escaping from
  `left + right` etc. is the distinguished kind `PErr.typeError`.
-/

namespace DZ

/-- Run-time values of the language: Python int / float / str / list. -/
inductive Value where
  | int (n : Int)
  | float (q : ℚ)
  | str (s : String)
  | arr (xs : List Value)
deriving Repr

/-- Token kinds, mirroring class `TokenType` of `DZ.py`. -/
inductive TKind where
  | EOF | NUMBER | STRING | IDENTIFIER
  | LBRACKET | RBRACKET | SEMICOLON | VAR | AT
  | LPAREN | RPAREN | PLUS | MINUS | MULTIPLY | ORD
deriving Repr, DecidableEq

/-- Error kinds of the toolchain (spec section 7 taxonomy).  The Python code
raises `SyntaxError` with a message; each distinct raise site becomes one
constructor here, carrying the `line`/`column` the message would carry.
`typeError` stands for a Python `TypeError` escaping from an arithmetic
operator, and `outOfFuel` is the artefact of fueling the recursion (never
reached when enough fuel is supplied). -/
inductive PErr where
  | unterminatedString (line col : Nat)
  | invalidNumber (line col : Nat)
  | unknownCharacter (c : Char) (line col : Nat)
  | unexpectedToken (expected found : TKind) (line col : Nat)
  | expectedValue (found : TKind) (line col : Nat)
  | unexpectedExprToken (found : TKind) (line col : Nat)
  | unknownConstant (name : String) (line col : Nat)
  | invalidArgument (line col : Nat)
  | typeError
  | outOfFuel
deriving Repr, DecidableEq

/-- Tokens, mirroring class `Token` of `DZ.py` (kind plus payload). -/
inductive Token where
  | eof
  | number (v : Value)
  | str (s : String)
  | ident (s : String)
  | lbracket | rbracket | semicolon | var | atSign
  | lparen | rparen | plus | minus | multiply | ord
deriving Repr

/-- Kind of a token, as compared by `Parser.eat`. -/
def Token.kind : Token → TKind
  | .eof => .EOF
  | .number _ => .NUMBER
  | .str _ => .STRING
  | .ident _ => .IDENTIFIER
  | .lbracket => .LBRACKET
  | .rbracket => .RBRACKET
  | .semicolon => .SEMICOLON
  | .var => .VAR
  | .atSign => .AT
  | .lparen => .LPAREN
  | .rparen => .RPAREN
  | .plus => .PLUS
  | .minus => .MINUS
  | .multiply => .MULTIPLY
  | .ord => .ORD

/-- Lexer state: `self.text`, `self.pos`, `self.line`, `self.col`. -/
structure LexState where
  text : List Char
  pos : Nat
  line : Nat
  col : Nat
deriving Repr

/-- Initial lexer state for an input string (`Lexer.__init__`). -/
def initLex (src : String) : LexState :=
  ⟨src.data, 0, 1, 1⟩

/-- Current character, `Lexer.peek` (where Python returns `''` past the end,
we return `none`). -/
def peek (s : LexState) : Option Char :=
  s.text.get? s.pos

/-- One-character advance with line tracking, `Lexer.advance`. -/
def advance (s : LexState) : LexState :=
  { s with
    pos := s.pos + 1
    line := if peek s = some '\n' then s.line + 1 else s.line
    col := if peek s = some '\n' then 1 else s.col + 1 }

/-- Whitespace set of `Lexer.skip_whitespace`. -/
def isWs (c : Char) : Bool :=
  c = ' ' ∨ c = '\t' ∨ c = '\r' ∨ c = '\n'

/-- Fueled body of the `while` loop in `Lexer.skip_whitespace`.  The fuel is
an upper bound on the iteration count; with fuel `≥ text.length - pos` it is
exact. -/
def skipWsFuel : Nat → LexState → LexState
  | 0, s => s
  | n + 1, s =>
    match peek s with
    | some c => if isWs c then skipWsFuel n (advance s) else s
    | none => s

/-- The loop of `Lexer.skip_whitespace` (each iteration advances `pos` by
one, so `text.length - pos` iterations always suffice). -/
def skip_whitespace (s : LexState) : LexState :=
  skipWsFuel (s.text.length - s.pos) s

/-- Fueled body of the scan loop in `Lexer.read_string`: runs from just
after the opening quote; `start` is the slice start.  When the fuel (an
upper bound on remaining characters) runs out, `pos ≥ text.length` holds on
every reachable call, which is exactly the loop's end-of-input exit. -/
def readStringFuel : Nat → LexState → Nat → Except PErr (String × LexState)
  | 0, s, _ => .error (.unterminatedString s.line s.col)
  | n + 1, s, start =>
    if s.pos < s.text.length then
      match peek s with
      | some ch =>
        if ch = '"' then
          .ok (⟨(s.text.drop start).take (s.pos - start)⟩, advance s)
        else if ch = '\\' then
          readStringFuel n (advance (advance s)) start
        else
          readStringFuel n (advance s) start
      | none => .error (.unterminatedString s.line s.col)
    else .error (.unterminatedString s.line s.col)

/-- `Lexer.read_string`: skip the opening quote, then scan to the closing
quote, treating a backslash as "skip the next character" with no decoding. -/
def read_string (s : LexState) : Except PErr (String × LexState) :=
  let s1 := advance s
  readStringFuel (s1.text.length - s1.pos) s1 s1.pos

/-- Identifier-character test of `Lexer.read_identifier`. -/
def isIdentChar (c : Char) : Bool :=
  c.isAlphanum ∨ c = '_'

/-- Fueled body of the scan loop in `Lexer.read_identifier`. -/
def identEndFuel : Nat → LexState → LexState
  | 0, s => s
  | n + 1, s =>
    match peek s with
    | some c => if isIdentChar c then identEndFuel n (advance s) else s
    | none => s

/-- `Lexer.read_identifier`: scan identifier characters, return the slice. -/
def read_identifier (s : LexState) : String × LexState :=
  let s' := identEndFuel (s.text.length - s.pos) s
  (⟨(s.text.drop s.pos).take (s'.pos - s.pos)⟩, s')

/-- Longest digit run at the head of a character list (the greedy `\d+`). -/
def takeDigits : List Char → List Char × List Char
  | [] => ([], [])
  | c :: rest =>
    if c.isDigit then
      let (ds, r) := takeDigits rest
      (c :: ds, r)
    else ([], c :: rest)

/-- Group 1 of `Lexer.NUMBER_REGEX`, with Python `re` semantics: the ordered
alternation `\d+|\d+\.\d*|\.\d+` in which the first alternative wins
whenever a digit leads (the engine never revisits the choice because the
rest of the pattern, an optional group, cannot fail).  Returns the matched
characters and the rest. -/
def pyGroup1 : List Char → Option (List Char × List Char)
  | [] => none
  | c :: rest =>
    if c.isDigit then
      some (takeDigits (c :: rest))
    else if c = '.' then
      match rest with
      | d :: _ =>
        if d.isDigit then
          let (ds, r) := takeDigits rest
          some ('.' :: ds, r)
        else none
      | [] => none
    else none

/-- Group 2 of `Lexer.NUMBER_REGEX`, the optional exponent
`([eE][-+]?\d+)?`: matches greedily, or matches the empty string when the
full exponent is not present. -/
def pyGroup2 : List Char → List Char × List Char
  | [] => ([], [])
  | c :: rest =>
    if c = 'e' ∨ c = 'E' then
      match rest with
      | s2 :: rest2 =>
        if s2 = '+' ∨ s2 = '-' then
          match rest2 with
          | d :: _ =>
            if d.isDigit then
              let (ds, r) := takeDigits rest2
              (c :: s2 :: ds, r)
            else ([], c :: rest)
          | [] => ([], c :: rest)
        else if s2.isDigit then
          let (ds, r) := takeDigits rest
          (c :: ds, r)
        else ([], c :: rest)
      | [] => ([], c :: rest)
    else ([], c :: rest)

/-- `Lexer.NUMBER_REGEX.match` at the head of the remaining text:
`-?(\d+|\d+\.\d*|\.\d+)([eE][-+]?\d+)?` under Python `re` matching.
Returns the matched characters and the rest, or `none` when there is no
match at the head. -/
def pyNumberMatch : List Char → Option (List Char × List Char)
  | [] => none
  | c :: rest =>
    if c = '-' then
      match pyGroup1 rest with
      | some (g1, r1) =>
        let (g2, r2) := pyGroup2 r1
        some ('-' :: (g1 ++ g2), r2)
      | none => none
    else
      match pyGroup1 (c :: rest) with
      | some (g1, r1) =>
        let (g2, r2) := pyGroup2 r1
        some (g1 ++ g2, r2)
      | none => none

/-- Numeric value of a digit list (base 10). -/
def digitsToNat (ds : List Char) : Nat :=
  ds.foldl (fun a c => a * 10 + (c.toNat - 48)) 0

/-- Python `int(num_str)` on the shapes `-?digits` the matcher produces. -/
def pyIntOfChars : List Char → Int
  | '-' :: ds => -(digitsToNat ds : Int)
  | ds => (digitsToNat ds : Int)

/-- Characters of a matched mantissa up to the first `e`/`E`, plus what
follows it. -/
def spanToExp : List Char → List Char × List Char
  | [] => ([], [])
  | c :: rest =>
    if c = 'e' ∨ c = 'E' then ([], rest)
    else
      let (a, b) := spanToExp rest
      (c :: a, b)

/-- Characters of the mantissa before the dot, plus what follows the dot. -/
def spanToDot : List Char → List Char × List Char
  | [] => ([], [])
  | c :: rest =>
    if c = '.' then ([], rest)
    else
      let (a, b) := spanToDot rest
      (c :: a, b)

/-- Python `float(num_str)` on matcher shapes, modelled exactly in `ℚ`. -/
def pyFloatOfChars (cs : List Char) : ℚ :=
  let core := fun (body : List Char) =>
    let (mant, ex) := spanToExp body
    let e : Int :=
      match ex with
      | '-' :: ds => -(digitsToNat ds : Int)
      | '+' :: ds => (digitsToNat ds : Int)
      | ds => (digitsToNat ds : Int)
    let (ip, fp) := spanToDot mant
    ((digitsToNat ip : ℚ) + (digitsToNat fp : ℚ) / (10 : ℚ) ^ fp.length) * (10 : ℚ) ^ e
  match cs with
  | '-' :: body => -(core body)
  | body => core body

/-- Conversion branch of the number token (`'.' in num_str or 'e' in
num_str.lower()` chooses float, else int). -/
def numberTokenOf (numChars : List Char) : Token :=
  if numChars.contains '.' ∨ numChars.contains 'e' ∨ numChars.contains 'E' then
    .number (.float (pyFloatOfChars numChars))
  else
    .number (.int (pyIntOfChars numChars))

/-- Guard of the number branch in `Lexer.next_token`: the current character
is a digit, or a `-` immediately followed by a digit. -/
def numberGuard (s : LexState) (ch : Char) : Bool :=
  ch.isDigit || (ch == '-' && (match s.text.get? (s.pos + 1) with
    | some d => d.isDigit
    | none => false))

/-- `Lexer.next_token`: skip whitespace, then dispatch on the current
character exactly as the chain of `if`s in the source does (string, number
branch guarded by `numberGuard` and matched by `NUMBER_REGEX`,
identifier/keyword, single-character symbols, unknown character).  A matched
number never contains a newline, so the position update is
`pos += len; col += len`, as in the source's no-newline branch. -/
def next_token (s0 : LexState) : Except PErr (Token × LexState) :=
  let s := skip_whitespace s0
  match peek s with
  | none => .ok (.eof, s)
  | some ch =>
    if ch = '"' then
      match read_string s with
      | .ok (v, s') => .ok (.str v, s')
      | .error e => .error e
    else
      match (if numberGuard s ch then pyNumberMatch (s.text.drop s.pos) else none) with
      | some (numChars, _) =>
        let s' := { s with pos := s.pos + numChars.length, col := s.col + numChars.length }
        .ok (numberTokenOf numChars, s')
      | none =>
        if ch.isAlpha ∨ ch = '_' then
          let (id, s') := read_identifier s
          if id = "var" then .ok (.var, s')
          else if id = "ord" then .ok (.ord, s')
          else .ok (.ident id, s')
        else if ch = '@' then .ok (.atSign, advance s)
        else if ch = '[' then .ok (.lbracket, advance s)
        else if ch = ']' then .ok (.rbracket, advance s)
        else if ch = ';' then .ok (.semicolon, advance s)
        else if ch = '(' then .ok (.lparen, advance s)
        else if ch = ')' then .ok (.rparen, advance s)
        else if ch = '+' then .ok (.plus, advance s)
        else if ch = '-' then .ok (.minus, advance s)
        else if ch = '*' then .ok (.multiply, advance s)
        else .error (.unknownCharacter ch s.line s.col)

/-- Association list with Python-`dict` insertion semantics: replacing an
existing key in place keeps its position, a new key is appended.  Used both
for the Constant Table (`self.constants`) and the Document (`config`). -/
def dictInsert : List (String × Value) → String → Value → List (String × Value)
  | [], k, v => [(k, v)]
  | (k', v') :: rest, k, v =>
    if k' = k then (k, v) :: rest
    else (k', v') :: dictInsert rest k v

/-- Lookup in the association list (`name in self.constants` plus the
subscript read). -/
def dictLookup : List (String × Value) → String → Option Value
  | [], _ => none
  | (k', v') :: rest, k => if k' = k then some v' else dictLookup rest k

/-- The parse result: the `config` mapping of `Parser.parse`. -/
abbrev Doc := List (String × Value)

/-- Parser state: the owned lexer, the one-token lookahead
`self.current_token`, and the Constant Table `self.constants`. -/
structure PState where
  lex : LexState
  cur : Token
  constants : List (String × Value)

/-- `Parser.eat`: check the current token's kind, then pull the next token
from the lexer; on a kind mismatch fail with `UnexpectedToken` at the
lexer's current position. -/
def eat (p : PState) (expected : TKind) : Except PErr (Token × PState) :=
  if p.cur.kind = expected then
    match next_token p.lex with
    | .ok (t, lex') => .ok (p.cur, { p with lex := lex', cur := t })
    | .error e => .error e
  else .error (.unexpectedToken expected p.cur.kind p.lex.line p.lex.col)

/-- `Parser.parse_identifier`: eat an IDENTIFIER token and return its name.
`eat` guarantees the token is an identifier, so the catch-all is dead. -/
def parse_identifier (p : PState) : Except PErr (String × PState) := do
  let (t, p') ← eat p .IDENTIFIER
  match t with
  | .ident name => .ok (name, p')
  | _ => .ok ("", p')

/-- Python `left + right` on the value model: numeric promotion for
numbers, concatenation for two strings and for two lists, `TypeError`
otherwise. -/
def pyAdd : Value → Value → Except PErr Value
  | .int a, .int b => .ok (.int (a + b))
  | .int a, .float b => .ok (.float ((a : ℚ) + b))
  | .float a, .int b => .ok (.float (a + (b : ℚ)))
  | .float a, .float b => .ok (.float (a + b))
  | .str a, .str b => .ok (.str (a ++ b))
  | .arr a, .arr b => .ok (.arr (a ++ b))
  | _, _ => .error .typeError

/-- Python `left - right`: numeric promotion only, `TypeError` otherwise. -/
def pySub : Value → Value → Except PErr Value
  | .int a, .int b => .ok (.int (a - b))
  | .int a, .float b => .ok (.float ((a : ℚ) - b))
  | .float a, .int b => .ok (.float (a - (b : ℚ)))
  | .float a, .float b => .ok (.float (a - b))
  | _, _ => .error .typeError

/-- Python sequence repetition `s * n` (a non-positive count gives the
empty sequence, as in Python). -/
def strRepeat (s : String) (n : Int) : String :=
  String.join (List.replicate n.toNat s)

/-- Python list repetition. -/
def listRepeat (xs : List Value) (n : Int) : List Value :=
  (List.replicate n.toNat xs).flatten

/-- Python `left * right`: numeric promotion for numbers, sequence
repetition for str/list with an int, `TypeError` otherwise. -/
def pyMul : Value → Value → Except PErr Value
  | .int a, .int b => .ok (.int (a * b))
  | .int a, .float b => .ok (.float ((a : ℚ) * b))
  | .float a, .int b => .ok (.float (a * (b : ℚ)))
  | .float a, .float b => .ok (.float (a * b))
  | .str a, .int b => .ok (.str (strRepeat a b))
  | .int a, .str b => .ok (.str (strRepeat b a))
  | .arr a, .int b => .ok (.arr (listRepeat a b))
  | .int a, .arr b => .ok (.arr (listRepeat b a))
  | _, _ => .error .typeError

mutual

/-- `Parser.parse_value`: dispatch on the current token kind (number,
string, array, `@`-expression), otherwise fail with the "expected a value"
error. -/
def parse_value : Nat → PState → Except PErr (Value × PState)
  | 0, _ => .error .outOfFuel
  | fuel + 1, p =>
    match p.cur with
    | .number v => do
      let (_, p') ← eat p .NUMBER
      .ok (v, p')
    | .str sv => do
      let (_, p') ← eat p .STRING
      .ok (.str sv, p')
    | .lbracket => parse_array fuel p
    | .atSign => parse_constant_expression fuel p
    | t => .error (.expectedValue t.kind p.lex.line p.lex.col)

/-- `Parser.parse_array`: `[`, optional first value, then `;`-separated
values, `]`. -/
def parse_array : Nat → PState → Except PErr (Value × PState)
  | 0, _ => .error .outOfFuel
  | fuel + 1, p => do
    let (_, p1) ← eat p .LBRACKET
    if p1.cur.kind = .RBRACKET then do
      let (_, p2) ← eat p1 .RBRACKET
      .ok (.arr [], p2)
    else do
      let (v, p2) ← parse_value fuel p1
      let (vs, p3) ← parse_array_rest fuel p2
      let (_, p4) ← eat p3 .RBRACKET
      .ok (.arr (v :: vs), p4)

/-- The `while current_token.type == SEMICOLON` loop inside
`Parser.parse_array`. -/
def parse_array_rest : Nat → PState → Except PErr (List Value × PState)
  | 0, _ => .error .outOfFuel
  | fuel + 1, p =>
    if p.cur.kind = .SEMICOLON then do
      let (_, p1) ← eat p .SEMICOLON
      let (v, p2) ← parse_value fuel p1
      let (vs, p3) ← parse_array_rest fuel p2
      .ok (v :: vs, p3)
    else .ok ([], p)

/-- `Parser.parse_constant_expression`: `@` `(` prefix-expression `)`. -/
def parse_constant_expression : Nat → PState → Except PErr (Value × PState)
  | 0, _ => .error .outOfFuel
  | fuel + 1, p => do
    let (_, p1) ← eat p .AT
    let (_, p2) ← eat p1 .LPAREN
    let (v, p3) ← parse_prefix_expression fuel p2
    let (_, p4) ← eat p3 .RPAREN
    .ok (v, p4)

/-- `Parser.parse_prefix_expression`: the fused parse-and-evaluate of
prefix expressions.  Binary operators recurse twice and apply the host
arithmetic; `ord` requires its evaluated operand to be a non-empty string
and returns the code point of its first character; an identifier resolves
against the Constant Table or fails with the unknown-constant error;
literals evaluate to themselves. -/
def parse_prefix_expression : Nat → PState → Except PErr (Value × PState)
  | 0, _ => .error .outOfFuel
  | fuel + 1, p =>
    match p.cur with
    | .plus => do
      let (_, p1) ← eat p .PLUS
      let (l, p2) ← parse_prefix_expression fuel p1
      let (r, p3) ← parse_prefix_expression fuel p2
      let v ← pyAdd l r
      .ok (v, p3)
    | .minus => do
      let (_, p1) ← eat p .MINUS
      let (l, p2) ← parse_prefix_expression fuel p1
      let (r, p3) ← parse_prefix_expression fuel p2
      let v ← pySub l r
      .ok (v, p3)
    | .multiply => do
      let (_, p1) ← eat p .MULTIPLY
      let (l, p2) ← parse_prefix_expression fuel p1
      let (r, p3) ← parse_prefix_expression fuel p2
      let v ← pyMul l r
      .ok (v, p3)
    | .ord => do
      let (_, p1) ← eat p .ORD
      let (_, p2) ← eat p1 .LPAREN
      let (a, p3) ← parse_prefix_expression fuel p2
      let (_, p4) ← eat p3 .RPAREN
      match a with
      | .str sv =>
        match sv.data with
        | c :: _ => .ok (.int (c.toNat : Int), p4)
        | [] => .error (.invalidArgument p4.lex.line p4.lex.col)
      | _ => .error (.invalidArgument p4.lex.line p4.lex.col)
    | .ident _ => do
      let (name, p1) ← parse_identifier p
      match dictLookup p1.constants name with
      | some v => .ok (v, p1)
      | none => .error (.unknownConstant name p1.lex.line p1.lex.col)
    | .number v => do
      let (_, p') ← eat p .NUMBER
      .ok (v, p')
    | .str sv => do
      let (_, p') ← eat p .STRING
      .ok (.str sv, p')
    | t => .error (.unexpectedExprToken t.kind p.lex.line p.lex.col)

end

/-- `Parser.parse_constant_declaration`: `var` NAME value, storing the
evaluated value in the Constant Table (overwriting any previous binding). -/
def parse_constant_declaration (fuel : Nat) (p : PState) : Except PErr PState := do
  let (_, p1) ← eat p .VAR
  let (name, p2) ← parse_identifier p1
  let (v, p3) ← parse_value fuel p2
  .ok { p3 with constants := dictInsert p3.constants name v }

/-- The `while current_token.type != EOF` loop of `Parser.parse`:
a `var` keyword starts a constant declaration, anything else is an entry
(identifier, `;`, value) stored into the Document. -/
def parse_items : Nat → PState → Doc → Except PErr Doc
  | 0, _, _ => .error .outOfFuel
  | fuel + 1, p, config =>
    match p.cur with
    | .eof => .ok config
    | .var => do
      let p' ← parse_constant_declaration fuel p
      parse_items fuel p' config
    | _ => do
      let (name, p1) ← parse_identifier p
      let (_, p2) ← eat p1 .SEMICOLON
      let (v, p3) ← parse_value fuel p2
      parse_items fuel p3 (dictInsert config name v)

/-- End-to-end parse of an input string: build the lexer, pull the first
token (`Parser.__init__`), then run `Parser.parse` with an empty Constant
Table and an empty Document. -/
def parse (fuel : Nat) (src : String) : Except PErr Doc := do
  let (t, lex) ← next_token (initLex src)
  parse_items fuel { lex := lex, cur := t, constants := [] } []

/-- Order on source positions: `(l1, c1)` is at or before `(l2, c2)`. -/
def posLe (l1 c1 l2 c2 : Nat) : Prop :=
  l1 < l2 ∨ (l1 = l2 ∧ c1 ≤ c2)

/-- Input of C1, with a semicolon after the constant declaration. -/
def inC1bad : String := "var x 5; k; @(+ x 2)"

/-- Input of C1 without the semicolon. -/
def inC1good : String := "var x 5 k; @(+ x 2)"

/-- Input of C2: `+` applied to two strings. -/
def inC2cat : String := "k; @(+ \"a\" \"b\")"

/-- Input of C2: `-` applied to two strings. -/
def inC2sub : String := "k; @(- \"a\" \"b\")"

/-- Input of C2: `+` applied to an int and a float. -/
def inC2mix : String := "k; @(+ 1 1e0)"

/-- Input of C4: subtraction example. -/
def inC4sub : String := "a; @(- 10 3)"

/-- Input of C4: `ord` with its operand parenthesized. -/
def inC4ord : String := "a; @(ord(\"A\"))"

/-- Input of C4: `ord` exactly as the claim writes it, operand not
parenthesized. -/
def inC4ordBad : String := "a; @(ord \"A\")"

/-- Input of C4: multiplication with a dotted float literal. -/
def inC4mul : String := "a; @(* 2.5 4)"

/-- Input of C4: the same product with the float in exponent form. -/
def inC4mulExp : String := "a; @(* 25e-1 4)"

/-- Input of C5: reference to an undeclared constant. -/
def inC5 : String := "value; @(+ y 1)"

/-- Input of C6: the same constant declared twice. -/
def inC6vars : String := "var x 1 var x 2 a; @(x)"

/-- Input of C6: the same entry name used twice. -/
def inC6entries : String := "a; 1 a; 2"

/-- Input of C7: an unterminated string literal. -/
def inC7 : String := "\"abc"

/-- Input of C10: an entry whose name equals a declared constant. -/
def inC10 : String := "var x 5 x; 9 k; @(x)"

/-- Parser state used to witness C5: lookahead is the identifier `y`,
the Constant Table is empty, the remaining input is empty. -/
def c5state : PState := ⟨initLex "", .ident "y", []⟩

/-- Parser state reached from `c5state` after eating the identifier. -/
def c5state' : PState := ⟨⟨[], 0, 1, 1⟩, .eof, []⟩

/-- Text used to witness C9: the tokens following an `ord` keyword. -/
def c9txt : List Char := ['(', '"', 'A', '"', ')']

/-- Parser state used to witness C9: lookahead is the `ord` keyword. -/
def c9state : PState := ⟨⟨c9txt, 0, 1, 1⟩, .ord, []⟩

/-- State after eating `ord` in `c9state`. -/
def c9p1 : PState := ⟨⟨c9txt, 1, 1, 2⟩, .lparen, []⟩

/-- State after eating `(` in `c9p1`. -/
def c9p2 : PState := ⟨⟨c9txt, 4, 1, 5⟩, .str "A", []⟩

/-- State after parsing the operand `"A"` from `c9p2`. -/
def c9p3 : PState := ⟨⟨c9txt, 5, 1, 6⟩, .rparen, []⟩

/-- State after eating `)` in `c9p3`. -/
def c9p4 : PState := ⟨⟨c9txt, 5, 1, 6⟩, .eof, []⟩

/-- Text used to witness C9 with a non-string operand. -/
def c9txtB : List Char := ['(', '5', ')']

/-- Parser state used to witness C9 on a non-string operand. -/
def c9stateB : PState := ⟨⟨c9txtB, 0, 1, 1⟩, .ord, []⟩

/-- State after eating `ord` in `c9stateB`. -/
def c9p1B : PState := ⟨⟨c9txtB, 1, 1, 2⟩, .lparen, []⟩

/-- State after eating `(` in `c9p1B`. -/
def c9p2B : PState := ⟨⟨c9txtB, 2, 1, 3⟩, .number (.int 5), []⟩

/-- State after parsing the operand `5` from `c9p2B`. -/
def c9p3B : PState := ⟨⟨c9txtB, 3, 1, 4⟩, .rparen, []⟩

/-- State after eating `)` in `c9p3B`. -/
def c9p4B : PState := ⟨⟨c9txtB, 3, 1, 4⟩, .eof, []⟩

/-- Parser state used to witness C10: lookahead is the number `5` and one
constant is bound. -/
def c10state : PState := ⟨initLex "", .number (.int 5), [("w", .int 1)]⟩

/-- Parser state reached from `c10state` after eating the number. -/
def c10state' : PState := ⟨⟨[], 0, 1, 1⟩, .eof, [("w", .int 1)]⟩

/-- Parser state used to witness the var-branch frame equation of C10:
lookahead is the `var` keyword, remaining input binds `x` to `5`. -/
def c10vstate : PState := ⟨initLex " x 5", .var, []⟩

theorem ok_bind {α β : Type} (a : α) (f : α → Except PErr β) :
    (Except.ok a : Except PErr α) >>= f = f a := rfl

theorem bind_eq_ok {α β : Type} {x : Except PErr α} {f : α → Except PErr β} {b : β}
    (h : x >>= f = .ok b) : ∃ a, x = .ok a ∧ f a = .ok b := by
  cases x with
  | ok a => exact ⟨a, rfl, h⟩
  | error e => exact Except.noConfusion h

theorem eat_ok_cur {p : PState} {k : TKind} {t : Token} {p' : PState}
    (h : eat p k = .ok (t, p')) : t = p.cur := by
  unfold eat at h
  split at h
  · split at h
    · cases h; rfl
    · exact Except.noConfusion h
  · exact Except.noConfusion h

theorem eat_constants {p : PState} {k : TKind} {t : Token} {p' : PState}
    (h : eat p k = .ok (t, p')) : p'.constants = p.constants := by
  unfold eat at h
  split at h
  · split at h
    · cases h; rfl
    · exact Except.noConfusion h
  · exact Except.noConfusion h

theorem parse_identifier_constants {p : PState} {nm : String} {p' : PState}
    (h : parse_identifier p = .ok (nm, p')) : p'.constants = p.constants := by
  simp only [parse_identifier] at h
  obtain ⟨⟨t, q⟩, he, h2⟩ := bind_eq_ok h
  have hq := eat_constants he
  cases t <;> cases h2 <;> exact hq

theorem posLe_refl (l c : Nat) : posLe l c l c := Or.inr ⟨rfl, Nat.le_refl c⟩

theorem posLe_trans {l1 c1 l2 c2 l3 c3 : Nat}
    (h1 : posLe l1 c1 l2 c2) (h2 : posLe l2 c2 l3 c3) : posLe l1 c1 l3 c3 := by
  simp only [posLe] at *
  omega

theorem advance_posLe (s : LexState) :
    posLe s.line s.col (advance s).line (advance s).col := by
  by_cases h : peek s = some '\n' <;> simp [advance, posLe, h]

theorem readStringFuel_error :
    ∀ (n : Nat) (s : LexState) (start : Nat) (e : PErr),
      readStringFuel n s start = .error e →
      ∃ l c, e = .unterminatedString l c ∧ posLe s.line s.col l c := by
  intro n
  induction n with
  | zero =>
    intro s start e h
    refine ⟨s.line, s.col, ?_, posLe_refl _ _⟩
    injection h with h'
    exact h'.symm
  | succ n ih =>
    intro s start e h
    simp only [readStringFuel] at h
    split at h
    · split at h
      · split at h
        · exact Except.noConfusion h
        · split at h
          · obtain ⟨l, c, he, hle⟩ := ih _ _ _ h
            exact ⟨l, c, he,
              posLe_trans (advance_posLe s) (posLe_trans (advance_posLe _) hle)⟩
          · obtain ⟨l, c, he, hle⟩ := ih _ _ _ h
            exact ⟨l, c, he, posLe_trans (advance_posLe s) hle⟩
      · refine ⟨s.line, s.col, ?_, posLe_refl _ _⟩
        injection h with h'
        exact h'.symm
    · refine ⟨s.line, s.col, ?_, posLe_refl _ _⟩
      injection h with h'
      exact h'.symm

theorem dictLookup_dictInsert (d : Doc) (k : String) (v : Value) :
    dictLookup (dictInsert d k v) k = some v := by
  induction d with
  | nil => simp [dictInsert, dictLookup]
  | cons hd tl ih =>
    obtain ⟨k', v'⟩ := hd
    by_cases hk : k' = k
    · simp [dictInsert, dictLookup, hk]
    · simp [dictInsert, dictLookup, hk, ih]

/-- C1: the claim asserts that `var x 5;` followed by the entry
`k; @(+ x 2)` parses successfully with `k = 7`; in fact the semicolon after
the constant declaration is not consumed anywhere, the top-level loop takes
it for the start of an entry, and `parse_identifier` fails with the
unexpected-token error. -/
theorem c1_counterexample :
    parse 32 inC1bad = .error (.unexpectedToken .IDENTIFIER .SEMICOLON 1 9) := by
  with_unfolding_all rfl

/-- C1 (amended): a semicolon after a constant declaration is not
tolerated — with it the parse fails with `UnexpectedToken(IDENTIFIER,
SEMICOLON)`; without it, `var x 5` followed by an entry whose value is
`@(+ x 2)` succeeds and gives that entry the integer value 7. -/
theorem c1_semicolon_amended :
    parse 32 inC1bad = .error (.unexpectedToken .IDENTIFIER .SEMICOLON 1 9)
      ∧ parse 32 inC1good = .ok [("k", .int 7)] := by
  constructor <;> with_unfolding_all rfl

/-- C2: the claim asserts that applying `+` to two strings fails with a
type-mismatch error; in fact the host `+` concatenates the two strings and
the parse succeeds. -/
theorem c2_counterexample :
    parse 32 inC2cat = .ok [("k", .str "ab")] := by
  with_unfolding_all rfl

/-- C2 (amended): the binary operators apply the host arithmetic directly:
two numeric operands combine with ordinary numeric promotion (mixed
int/float gives float); `+` on two strings concatenates and `*` on a string
and an int repeats, both succeeding; only combinations the host rejects
(for example `-` on two strings, or `*` on two strings) fail, with a host
type error rather than a parse-time check. -/
theorem c2_arith_amended :
    (∀ a b : Int, pyAdd (.int a) (.int b) = .ok (.int (a + b)))
      ∧ (∀ (a : Int) (q : ℚ), pyAdd (.int a) (.float q) = .ok (.float ((a : ℚ) + q)))
      ∧ (∀ (q : ℚ) (b : Int), pySub (.float q) (.int b) = .ok (.float (q - (b : ℚ))))
      ∧ (∀ q r : ℚ, pyMul (.float q) (.float r) = .ok (.float (q * r)))
      ∧ (∀ s t : String, pyAdd (.str s) (.str t) = .ok (.str (s ++ t)))
      ∧ (∀ s t : String, pySub (.str s) (.str t) = .error .typeError)
      ∧ (∀ s t : String, pyMul (.str s) (.str t) = .error .typeError)
      ∧ (∀ (s : String) (n : Int), pyMul (.str s) (.int n) = .ok (.str (strRepeat s n)))
      ∧ parse 32 inC2cat = .ok [("k", .str "ab")]
      ∧ parse 32 inC2sub = .error .typeError
      ∧ parse 32 inC2mix = .ok [("k", .float 2)] := by
  refine ⟨fun a b => rfl, fun a q => rfl, fun q b => rfl, fun q r => rfl,
    fun s t => rfl, fun s t => rfl, fun s t => rfl, fun s n => rfl,
    by with_unfolding_all rfl, by with_unfolding_all rfl, by with_unfolding_all rfl⟩

/-- C3: the tokenizer does not recognize every literal matching
`NUMBER_REGEX`.  A leading-dot literal `.5` — which the regex itself
matches in full — is rejected with `UnknownCharacter('.')`, because the
number branch only fires on a digit or on `-` followed by a digit; and on
`2.5` the regex matches only `"2"` (Python's ordered alternation tries
`\d+` first and the optional exponent group cannot fail), so the token is
the Integer 2 and the following `.` then raises `UnknownCharacter`. -/
theorem c3_number_lexing_bug :
    next_token (initLex ".5") = .error (.unknownCharacter '.' 1 1)
      ∧ pyNumberMatch ".5".data = some (".5".data, [])
      ∧ next_token (initLex "2.5") = .ok (.number (.int 2), ⟨"2.5".data, 1, 1, 2⟩)
      ∧ pyNumberMatch "2.5".data = some (['2'], ['.', '5'])
      ∧ next_token ⟨"2.5".data, 1, 1, 2⟩ = .error (.unknownCharacter '.' 1 2)
      ∧ next_token (initLex "1e5") = .ok (.number (.float 100000), ⟨"1e5".data, 3, 1, 4⟩)
      ∧ next_token (initLex "-3") = .ok (.number (.int (-3)), ⟨"-3".data, 2, 1, 3⟩) := by
  refine ⟨?_, ?_, ?_, ?_, ?_, ?_, ?_⟩ <;> with_unfolding_all rfl

/-- C4: the claim asserts `@(ord "A")` evaluates to 65 and `@(* 2.5 4)` to
float 10.0; in fact the first fails with `UnexpectedToken(LPAREN, STRING)`
(the grammar requires the `ord` operand to be parenthesized) and the second
fails with `UnknownCharacter('.')` (the dotted float literal cannot be
tokenized). -/
theorem c4_counterexample :
    parse 32 inC4ordBad = .error (.unexpectedToken .LPAREN .STRING 1 13)
      ∧ parse 32 inC4mul = .error (.unknownCharacter '.' 1 9) := by
  constructor <;> with_unfolding_all rfl

/-- C4 (amended): `@(- 10 3)` evaluates to integer 7; `ord` requires its
operand in parentheses, so `@(ord("A"))` evaluates to integer 65 while
`@(ord "A")` fails with `UnexpectedToken(LPAREN, STRING)`; a float literal
written with a decimal dot cannot be tokenized, so `@(* 2.5 4)` fails with
`UnknownCharacter('.')`, while the same product written in exponent form,
`@(* 25e-1 4)`, evaluates to the float 10.0. -/
theorem c4_examples_amended :
    parse 32 inC4sub = .ok [("a", .int 7)]
      ∧ parse 32 inC4ord = .ok [("a", .int 65)]
      ∧ parse 32 inC4ordBad = .error (.unexpectedToken .LPAREN .STRING 1 13)
      ∧ parse 32 inC4mul = .error (.unknownCharacter '.' 1 9)
      ∧ parse 32 inC4mulExp = .ok [("a", .float 10)] := by
  refine ⟨?_, ?_, ?_, ?_, ?_⟩ <;> with_unfolding_all rfl

set_option maxHeartbeats 2000000 in
/-- C6: for every duplicate name the last value wins, in the Constant Table
and in the Document alike: the shared insertion primitive overwrites, and
end to end both `var x 1 var x 2` (with a later reference to `x`) and the
duplicate entry `a; 1 a; 2` keep only the last value, with no error. -/
theorem c6_last_write_wins :
    (∀ (d : Doc) (k : String) (v1 v2 : Value),
        dictLookup (dictInsert (dictInsert d k v1) k v2) k = some v2)
      ∧ parse 32 inC6vars = .ok [("a", .int 2)]
      ∧ parse 32 inC6entries = .ok [("a", .int 2)] := by
  exact ⟨fun d k v1 v2 => dictLookup_dictInsert _ k v2,
    by with_unfolding_all rfl, by with_unfolding_all rfl⟩

/-- C8: inside a string literal a backslash makes the scanner skip the
immediately following character, whatever it is — in particular an escaped
quote does not terminate the literal — and no decoding happens: the
backslash and the skipped character both appear verbatim in the token's
value, and the scan continues to the real closing quote (here position 6).
Stated for every possible skipped character `c` in the literal
`"x\«c»y"`. -/
theorem c8_backslash_verbatim :
    ∀ c : Char,
      (read_string (initLex ⟨['"', 'x', '\\', c, 'y', '"']⟩)).map Prod.fst
          = .ok ⟨['x', '\\', c, 'y']⟩
        ∧ (read_string (initLex ⟨['"', 'x', '\\', c, 'y', '"']⟩)).map (fun r => r.2.pos)
          = .ok 6 := by
  exact fun c => ⟨rfl, rfl⟩

/-- C5: an identifier operand of a prefix expression resolves strictly
against the Constant Table: when the name has no binding the parse fails
with the unknown-constant error carrying that name (and never yields a
default value), and when it has one the parse returns exactly the stored
value.  The hypothesis on `eat` says only that pulling the following token
succeeds. -/
theorem c5_unknown_constant (fuel : Nat) (p : PState) (name : String)
    (t : Token) (p1 : PState)
    (hcur : p.cur = .ident name) (heat : eat p .IDENTIFIER = .ok (t, p1)) :
    (dictLookup p.constants name = none →
      parse_prefix_expression (fuel + 1) p
        = .error (.unknownConstant name p1.lex.line p1.lex.col))
      ∧ (∀ v, dictLookup p.constants name = some v →
        parse_prefix_expression (fuel + 1) p = .ok (v, p1)) := by
  have ht : t = p.cur := eat_ok_cur heat
  have hpc : p1.constants = p.constants := eat_constants heat
  obtain ⟨lex0, cur0, cons0⟩ := p
  replace hcur : cur0 = Token.ident name := hcur
  subst hcur
  subst ht
  constructor
  · intro hnone
    simp only [parse_prefix_expression, parse_identifier, heat, ok_bind]
    rw [show p1.constants = cons0 from hpc, hnone]
  · intro v hsome
    simp only [parse_prefix_expression, parse_identifier, heat, ok_bind]
    rw [show p1.constants = cons0 from hpc, hsome]

/-- C5 witness: with an empty Constant Table and current token `y`, the
prefix-expression parse fails with `UnknownConstant("y")`; end to end,
`value; @(+ y 1)` with no prior `var y` fails with `UnknownConstant("y")`. -/
theorem c5_unknown_constant_witness :
    parse_prefix_expression 1 c5state = .error (.unknownConstant "y" 1 1)
      ∧ parse 32 inC5 = .error (.unknownConstant "y" 1 15) := by
  constructor
  · exact (c5_unknown_constant 0 c5state "y" (.ident "y") c5state'
      (by with_unfolding_all rfl) (by with_unfolding_all rfl)).1
      (by with_unfolding_all rfl)
  · with_unfolding_all rfl

/-- C7: whenever scanning a string literal (the current character is the
opening quote) fails, the failure is the unterminated-string error and the
position it reports is at or after the opening quote's position. -/
theorem c7_unterminated (s : LexState) (e : PErr)
    (_hq : peek s = some '"') (h : read_string s = .error e) :
    ∃ l c, e = .unterminatedString l c ∧ posLe s.line s.col l c := by
  simp only [read_string] at h
  obtain ⟨l, c, he, hle⟩ := readStringFuel_error _ _ _ _ h
  exact ⟨l, c, he, posLe_trans (advance_posLe s) hle⟩

/-- C7 witness: the input ending mid-literal `"abc` fails with
`UnterminatedString` reported at line 1, column 5, which is at or after the
opening quote at line 1, column 1. -/
theorem c7_unterminated_witness :
    ∃ l c, (PErr.unterminatedString 1 5) = .unterminatedString l c ∧ posLe 1 1 l c :=
  c7_unterminated (initLex inC7) (.unterminatedString 1 5)
    (by with_unfolding_all rfl) (by with_unfolding_all rfl)

/-- C9: `ord` evaluates its single parenthesized operand; when the operand
evaluates to a non-empty string the result is the integer code point of the
string's first character, and for every other operand value (an empty
string, or any non-string) the parse fails with the invalid-argument
error.  The hypotheses describe the sub-steps of the `ord` branch: eating
`ord` and `(`, evaluating the operand to `a`, and eating `)`. -/
theorem c9_ord_semantics (fuel : Nat) (p p1 p2 p3 p4 : PState)
    (t1 t2 t4 : Token) (a : Value)
    (hcur : p.cur = .ord)
    (h1 : eat p .ORD = .ok (t1, p1))
    (h2 : eat p1 .LPAREN = .ok (t2, p2))
    (h3 : parse_prefix_expression fuel p2 = .ok (a, p3))
    (h4 : eat p3 .RPAREN = .ok (t4, p4)) :
    (∀ (c : Char) (cs : List Char), a = .str ⟨c :: cs⟩ →
        parse_prefix_expression (fuel + 1) p = .ok (.int (c.toNat : Int), p4))
      ∧ ((∀ sv : String, a = .str sv → sv = "") →
        parse_prefix_expression (fuel + 1) p
          = .error (.invalidArgument p4.lex.line p4.lex.col)) := by
  obtain ⟨lex0, cur0, cons0⟩ := p
  replace hcur : cur0 = Token.ord := hcur
  subst hcur
  constructor
  · intro c cs ha
    subst ha
    simp only [parse_prefix_expression, h1, ok_bind, h2, h3, h4]
  · intro hemp
    cases a with
    | str sv =>
      obtain rfl : sv = "" := hemp sv rfl
      simp only [parse_prefix_expression, h1, ok_bind, h2, h3, h4]
    | int n => simp only [parse_prefix_expression, h1, ok_bind, h2, h3, h4]
    | float q => simp only [parse_prefix_expression, h1, ok_bind, h2, h3, h4]
    | arr xs => simp only [parse_prefix_expression, h1, ok_bind, h2, h3, h4]

/-- C9 witness: with the operand `("A")` the `ord` branch returns the
integer 65, and with the operand `(5)` it fails with `InvalidArgument`. -/
theorem c9_ord_semantics_witness :
    parse_prefix_expression 2 c9state = .ok (.int 65, c9p4)
      ∧ parse_prefix_expression 2 c9stateB = .error (.invalidArgument 1 4) := by
  constructor
  · exact (c9_ord_semantics 1 c9state c9p1 c9p2 c9p3 c9p4 .ord .lparen .rparen
      (.str "A") (by with_unfolding_all rfl) (by with_unfolding_all rfl)
      (by with_unfolding_all rfl) (by with_unfolding_all rfl)
      (by with_unfolding_all rfl)).1 'A' [] (by with_unfolding_all rfl)
  · exact (c9_ord_semantics 1 c9stateB c9p1B c9p2B c9p3B c9p4B .ord .lparen .rparen
      (.int 5) (by with_unfolding_all rfl) (by with_unfolding_all rfl)
      (by with_unfolding_all rfl) (by with_unfolding_all rfl)
      (by with_unfolding_all rfl)).2 (fun sv hsv => Value.noConfusion hsv)

theorem preserve_constants : ∀ fuel : Nat,
    (∀ (p : PState) (r : Value × PState),
      parse_value fuel p = .ok r → r.2.constants = p.constants)
    ∧ (∀ (p : PState) (r : Value × PState),
      parse_array fuel p = .ok r → r.2.constants = p.constants)
    ∧ (∀ (p : PState) (r : List Value × PState),
      parse_array_rest fuel p = .ok r → r.2.constants = p.constants)
    ∧ (∀ (p : PState) (r : Value × PState),
      parse_constant_expression fuel p = .ok r → r.2.constants = p.constants)
    ∧ (∀ (p : PState) (r : Value × PState),
      parse_prefix_expression fuel p = .ok r → r.2.constants = p.constants) := by
  intro fuel
  induction fuel with
  | zero =>
    refine ⟨?_, ?_, ?_, ?_, ?_⟩ <;> intro p r h <;> exact Except.noConfusion h
  | succ n ih =>
    obtain ⟨ihv, iha, ihr, ihc, ihp⟩ := ih
    refine ⟨?_, ?_, ?_, ?_, ?_⟩
    · intro p r h
      obtain ⟨lex0, cur0, cons0⟩ := p
      cases cur0 <;> simp only [parse_value] at h
      case number v =>
        obtain ⟨⟨t, p'⟩, he, h2⟩ := bind_eq_ok h
        cases h2
        exact eat_constants he
      case str sv =>
        obtain ⟨⟨t, p'⟩, he, h2⟩ := bind_eq_ok h
        cases h2
        exact eat_constants he
      case lbracket => exact iha _ _ h
      case atSign => exact ihc _ _ h
      all_goals exact Except.noConfusion h
    · intro p r h
      simp only [parse_array] at h
      obtain ⟨⟨t0, p1⟩, he0, h⟩ := bind_eq_ok h
      simp only at h
      split at h
      · obtain ⟨⟨t1, p2⟩, he1, h⟩ := bind_eq_ok h
        cases h
        exact (eat_constants he1).trans (eat_constants he0)
      · obtain ⟨⟨v, p2⟩, hv, h⟩ := bind_eq_ok h
        obtain ⟨⟨vs, p3⟩, hr, h⟩ := bind_eq_ok h
        obtain ⟨⟨t4, p4⟩, he4, h⟩ := bind_eq_ok h
        cases h
        exact ((eat_constants he4).trans
          (((ihr _ _ hr).trans (ihv _ _ hv)).trans (eat_constants he0)))
    · intro p r h
      simp only [parse_array_rest] at h
      split at h
      · obtain ⟨⟨t0, p1⟩, he0, h⟩ := bind_eq_ok h
        obtain ⟨⟨v, p2⟩, hv, h⟩ := bind_eq_ok h
        obtain ⟨⟨vs, p3⟩, hr, h⟩ := bind_eq_ok h
        cases h
        exact ((ihr _ _ hr).trans (ihv _ _ hv)).trans (eat_constants he0)
      · cases h
        rfl
    · intro p r h
      simp only [parse_constant_expression] at h
      obtain ⟨⟨t0, p1⟩, he0, h⟩ := bind_eq_ok h
      obtain ⟨⟨t1, p2⟩, he1, h⟩ := bind_eq_ok h
      obtain ⟨⟨v, p3⟩, hv, h⟩ := bind_eq_ok h
      obtain ⟨⟨t4, p4⟩, he4, h⟩ := bind_eq_ok h
      cases h
      exact (eat_constants he4).trans
        (((ihp _ _ hv).trans (eat_constants he1)).trans (eat_constants he0))
    · intro p r h
      obtain ⟨lex0, cur0, cons0⟩ := p
      cases cur0 <;> simp only [parse_prefix_expression] at h
      case plus =>
        obtain ⟨⟨t0, p1⟩, he0, h⟩ := bind_eq_ok h
        obtain ⟨⟨l, p2⟩, hl, h⟩ := bind_eq_ok h
        obtain ⟨⟨rv, p3⟩, hrv, h⟩ := bind_eq_ok h
        obtain ⟨v, hv, h⟩ := bind_eq_ok h
        cases h
        exact ((ihp _ _ hrv).trans (ihp _ _ hl)).trans (eat_constants he0)
      case minus =>
        obtain ⟨⟨t0, p1⟩, he0, h⟩ := bind_eq_ok h
        obtain ⟨⟨l, p2⟩, hl, h⟩ := bind_eq_ok h
        obtain ⟨⟨rv, p3⟩, hrv, h⟩ := bind_eq_ok h
        obtain ⟨v, hv, h⟩ := bind_eq_ok h
        cases h
        exact ((ihp _ _ hrv).trans (ihp _ _ hl)).trans (eat_constants he0)
      case multiply =>
        obtain ⟨⟨t0, p1⟩, he0, h⟩ := bind_eq_ok h
        obtain ⟨⟨l, p2⟩, hl, h⟩ := bind_eq_ok h
        obtain ⟨⟨rv, p3⟩, hrv, h⟩ := bind_eq_ok h
        obtain ⟨v, hv, h⟩ := bind_eq_ok h
        cases h
        exact ((ihp _ _ hrv).trans (ihp _ _ hl)).trans (eat_constants he0)
      case ord =>
        obtain ⟨⟨t0, p1⟩, he0, h⟩ := bind_eq_ok h
        obtain ⟨⟨t1, p2⟩, he1, h⟩ := bind_eq_ok h
        obtain ⟨⟨a, p3⟩, ha, h⟩ := bind_eq_ok h
        obtain ⟨⟨t4, p4⟩, he4, h⟩ := bind_eq_ok h
        have hchain : p4.constants = cons0 :=
          (eat_constants he4).trans
            (((ihp _ _ ha).trans (eat_constants he1)).trans (eat_constants he0))
        cases a with
        | str sv =>
          simp only at h
          split at h
          · cases h
            exact hchain
          · exact Except.noConfusion h
        | int m => exact Except.noConfusion h
        | float q => exact Except.noConfusion h
        | arr xs => exact Except.noConfusion h
      case ident nm0 =>
        obtain ⟨⟨nm, p1⟩, hid, h⟩ := bind_eq_ok h
        simp only at h
        split at h
        · cases h
          exact parse_identifier_constants hid
        · exact Except.noConfusion h
      case number v =>
        obtain ⟨⟨t, p'⟩, he, h2⟩ := bind_eq_ok h
        cases h2
        exact eat_constants he
      case str sv =>
        obtain ⟨⟨t, p'⟩, he, h2⟩ := bind_eq_ok h
        cases h2
        exact eat_constants he
      all_goals exact Except.noConfusion h

/-- C10: the constant namespace and the Document are disjoint state.
Parsing an entry's value (and in particular any prefix expression inside
it) never changes the Constant Table; a constant declaration step threads
the Document through untouched (the `var` branch of the top-level loop is
exactly a bind that passes `config` on unchanged); and end to end, an entry
named like a previously declared constant shadows nothing: in
`var x 5 x; 9 k; @(x)` the later reference still sees `5` while the
Document keeps the entry value `9` under `x`. -/
theorem c10_frame :
    (∀ (fuel : Nat) (p : PState) (r : Value × PState),
        parse_value fuel p = .ok r → r.2.constants = p.constants)
      ∧ (∀ (fuel : Nat) (p : PState) (r : Value × PState),
        parse_prefix_expression fuel p = .ok r → r.2.constants = p.constants)
      ∧ (∀ (fuel : Nat) (p : PState) (config : Doc), p.cur = .var →
        parse_items (fuel + 1) p config
          = (parse_constant_declaration fuel p).bind fun p' => parse_items fuel p' config)
      ∧ parse 32 inC10 = .ok [("x", .int 9), ("k", .int 5)] := by
  refine ⟨fun fuel => (preserve_constants fuel).1,
    fun fuel => (preserve_constants fuel).2.2.2.2, ?_, by with_unfolding_all rfl⟩
  intro fuel p config hvar
  obtain ⟨lex0, cur0, cons0⟩ := p
  replace hvar : cur0 = Token.var := hvar
  subst hvar
  rfl

/-- C10 witness: a number-valued `parse_value` step leaves the one-entry
Constant Table unchanged, and a `var` step on a concrete state is the bind
that passes the Document argument through unchanged. -/
theorem c10_frame_witness :
    c10state'.constants = c10state.constants
      ∧ parse_items 3 c10vstate [("k", .int 0)]
          = (parse_constant_declaration 2 c10vstate).bind
              (fun p' => parse_items 2 p' [("k", .int 0)]) := by
  constructor
  · exact c10_frame.1 1 c10state (Value.int 5, c10state') (by with_unfolding_all rfl)
  · exact c10_frame.2.2.1 2 c10vstate [("k", .int 0)] (by with_unfolding_all rfl)

end DZ
